import Mathlib

/-!
Verification of the TESTBOT repository (src/app.py): a Telegram bot that
collects a name and replies with eight styled variants, plus a Flask
liveness endpoint.

The development shallowly embeds the pure string transformations of
`create_name_styles`, the conversation handlers (`start`, `get_name`,
`cancel`, `help_command`), the dispatch behaviour of the configured
`ConversationHandler` (entry points, per-state handlers, fallbacks, with
the library default `allow_reentry = False`), and the module-level token
check.

Strings are modelled by Lean `String` (a list of unicode code points),
matching Python `str` iteration by code point.  The whole-string case
mappings (`str.upper`, `str.lower`, `str.title`) are modelled by the
ASCII case maps `Char.toUpper` / `Char.toLower`, following the
per-code-point ASCII-style reading the specification itself fixes.
Where a claim depends on the length of a case-mapped character, the
per-character mapping is modelled as a character list (`pyCharUpper`,
`pyCharLower`), because CPython applies the Unicode full case mapping,
under which a single character may map to several. -/

namespace NameBot

/-- ASCII model of the character class stripped by Python `str.strip()`
(space, tab, newline, carriage return, vertical tab, form feed). -/
def pyIsSpace (c : Char) : Bool :=
  c = ' ' || c = '\t' || c = '\n' || c = '\r' || c = Char.ofNat 11 || c = Char.ofNat 12

/-- Model of Python `str.strip()` on the underlying character list:
drop whitespace from the front, then from the back. -/
def stripData (l : List Char) : List Char :=
  ((l.dropWhile pyIsSpace).reverse.dropWhile pyIsSpace).reverse

/-- Model of Python `str.strip()` (no arguments): remove leading and
trailing whitespace. -/
def pyStrip (s : String) : String :=
  ⟨stripData s.data⟩

/-- Model of Python `str.upper()`: every character mapped to its
uppercase form (ASCII case map). -/
def pyUpper (s : String) : String :=
  ⟨s.data.map Char.toUpper⟩

/-- Model of Python `str.lower()`: every character mapped to its
lowercase form (ASCII case map). -/
def pyLower (s : String) : String :=
  ⟨s.data.map Char.toLower⟩

/-- Model of Python `name[::-1]`: the character sequence reversed. -/
def pyReverse (s : String) : String :=
  ⟨s.data.reverse⟩

/-- The character-by-character loop of CPython `str.title()`: a cased
(here: alphabetic) character is uppercased when the previous character
was not cased and lowercased otherwise; uncased characters pass through
and reset the word boundary.  The Boolean argument records whether the
previous character was cased. -/
def titleAux : Bool → List Char → List Char
  | _, [] => []
  | prevCased, c :: cs =>
      (if c.isAlpha then (if prevCased then c.toLower else c.toUpper) else c)
        :: titleAux c.isAlpha cs

/-- Model of Python `name.title()` (ASCII case map, word = maximal run
of cased characters, exactly as CPython defines it). -/
def pyTitle (s : String) : String :=
  ⟨titleAux false s.data⟩

/-- Model of Python `sep.join(parts)`: the parts concatenated with the
separator between consecutive parts. -/
def joinWith (sep : List Char) : List (List Char) → List Char
  | [] => []
  | [x] => x
  | x :: y :: xs => x ++ sep ++ joinWith sep (y :: xs)

/-- Python's per-character `str.upper()` as a character list: CPython
applies the Unicode full uppercase mapping, under which a character may
expand to several characters; `ß` (U+00DF) uppercases to `SS`.  The
model records that expanding case and is the exact ASCII map
elsewhere. -/
def pyCharUpper (c : Char) : List Char :=
  if c = 'ß' then ['S', 'S'] else [c.toUpper]

/-- Python's per-character `str.lower()` as a character list: the
Unicode full lowercase mapping; `İ` (U+0130) lowercases to `i`
followed by combining dot above (U+0307).  The model records that
expanding case and is the exact ASCII map elsewhere. -/
def pyCharLower (c : Char) : List Char :=
  if c = 'İ' then [Char.ofNat 105, Char.ofNat 775] else [c.toLower]

/-- The alternating-case transform of `create_name_styles`:
`''.join(char.upper() if i % 2 == 0 else char.lower() for i, char in
enumerate(name))`, where each `char.upper()` / `char.lower()` is a
(possibly expanding) string. -/
def alternating (name : String) : String :=
  ⟨(name.data.enum.map
      (fun ic => if ic.1 % 2 = 0 then pyCharUpper ic.2 else pyCharLower ic.2)).flatten⟩

/-- The emoji transform of `create_name_styles`:
`' '.join(f"{char}✨" for char in name)`. -/
def emoji_name (name : String) : String :=
  ⟨joinWith [' '] (name.data.map (fun c => [c, '✨']))⟩

/-- The spaced-out transform of `create_name_styles`: `' '.join(name)`,
i.e. every character separated by a single space. -/
def spaced (name : String) : String :=
  ⟨joinWith [' '] (name.data.map (fun c => [c]))⟩

/-- The list `styles` built by `create_name_styles` in src/app.py: the
eight labelled style lines, in source order. -/
def create_name_styles_list (name : String) : List String :=
  [ "🔹 Normal: " ++ name
  , "🔸 UPPERCASE: " ++ pyUpper name
  , "🔹 lowercase: " ++ pyLower name
  , "🔸 Title Case: " ++ pyTitle name
  , "🔹 AlTeRnAtInG: " ++ alternating name
  , "🔸 Reverse: " ++ pyReverse name
  , "🔹 With Emojis: " ++ emoji_name name
  , "🔸 Spaced Out: " ++ spaced name ]

/-- `create_name_styles` of src/app.py: the eight style lines joined by
newlines (`'\n'.join(styles)`). -/
def create_name_styles (name : String) : String :=
  String.intercalate "\n" (create_name_styles_list name)

/-- The conversation state of one chat, as tracked by the configured
`ConversationHandler`: `awaitingName` is the `GET_NAME` state; `idle`
is "no active conversation" (before `/start`, or after the handler
returned `ConversationHandler.END`, which removes the chat key from the
handler's conversation map). -/
inductive ConvState
  | idle
  | awaitingName
deriving DecidableEq, Repr

/-- An inbound text update, dispatched as a tagged variant: a bot
command `/name` (a text message carrying a bot-command entity at offset
0, matched by `CommandHandler` and by `filters.COMMAND`) or plain free
text (matched by `filters.TEXT & ~filters.COMMAND`). -/
inductive Inbound
  | command (c : String)
  | text (body : String)
deriving DecidableEq, Repr

/-- The welcome message sent by the `start` handler in src/app.py. -/
def welcome_message : String :=
  "👋 Welcome to the Name Styler Bot!\n\nI can display your name in different cool styles. Please send me your name:"

/-- The validation complaint sent by `get_name` when the stripped text
is empty. -/
def validation_message : String :=
  "Please send me a valid name!"

/-- The secondary prompt sent by `get_name` after the styled reply. -/
def retry_message : String :=
  "Want to try another name? Use /start to begin again!"

/-- The acknowledgment sent by the `cancel` handler. -/
def cancel_message : String :=
  "Operation cancelled. Use /start to begin again!"

/-- The static instructions sent by `help_command`. -/
def help_text : String :=
  "🤖 Name Styler Bot Help\n\n• Use /start to begin and enter your name\n• I\x27ll show your name in different cool styles\n• You can try as many names as you want!\n\nJust type /start to begin the fun!"

/-- The `start` handler: send the welcome message and return
`GET_NAME`.  Result: messages sent, next conversation state. -/
def start : List String × ConvState :=
  ([welcome_message], ConvState.awaitingName)

/-- The `get_name` handler: strip the inbound text; if empty, complain
and stay in `GET_NAME`; otherwise send the styled response and the
secondary prompt and return `ConversationHandler.END`. -/
def get_name (text : String) : List String × ConvState :=
  let user_name := pyStrip text
  if user_name = "" then
    ([validation_message], ConvState.awaitingName)
  else
    ([ "✨ Here\x27s your name in different styles, " ++ user_name ++ "!\n\n"
         ++ create_name_styles user_name
     , retry_message ], ConvState.idle)

/-- The `cancel` handler: acknowledge and return
`ConversationHandler.END`. -/
def cancel : List String × ConvState :=
  ([cancel_message], ConvState.idle)

/-- One dispatch step of the application for an inbound update in a
chat with the given conversation state, following the configured
handlers of src/app.py under python-telegram-bot dispatch rules:

* group 0 holds the `ConversationHandler` (entry point
  `CommandHandler('start', start)`; state `GET_NAME` handled by
  `MessageHandler(filters.TEXT & ~filters.COMMAND, get_name)`;
  fallback `CommandHandler('cancel', cancel)`) followed by
  `CommandHandler('help', help_command)`; the first match wins;
* with no active conversation only the entry points are consulted;
* with an active conversation the state handlers are consulted, then
  (since `allow_reentry` keeps its default `False`, never the entry
  points) the fallbacks;
* `filters.TEXT & ~filters.COMMAND` rejects commands, so free text is
  handled by `get_name` only in state `GET_NAME`;
* an update matched by no handler is dropped: no reply, state kept. -/
def dispatch (s : ConvState) (u : Inbound) : List String × ConvState :=
  match u with
  | Inbound.text body =>
      match s with
      | ConvState.awaitingName => get_name body
      | ConvState.idle => ([], ConvState.idle)
  | Inbound.command c =>
      match s with
      | ConvState.idle =>
          if c = "start" then start
          else if c = "help" then ([help_text], ConvState.idle)
          else ([], ConvState.idle)
      | ConvState.awaitingName =>
          if c = "cancel" then cancel
          else if c = "help" then ([help_text], ConvState.awaitingName)
          else ([], ConvState.awaitingName)

/-- The error message of the module-level token check in src/app.py. -/
def token_error_message : String :=
  "No TELEGRAM_BOT_TOKEN found in environment variables"

/-- Events of the startup sequence: each listener loop beginning to
run (`application.run_polling` in the bot thread, `app.run` for
Flask). -/
inductive ListenerEvent
  | pollingStarted
  | httpStarted
deriving DecidableEq, Repr

/-- The module-level configuration check of src/app.py:
`TOKEN = os.getenv('TELEGRAM_BOT_TOKEN')` followed by
`if not TOKEN: raise ValueError(...)`.  Python truthiness makes both a
missing variable (`None`) and an empty string falsy. -/
def moduleTokenCheck (env : String → Option String) : Except String String :=
  match env "TELEGRAM_BOT_TOKEN" with
  | none => Except.error token_error_message
  | some t => if t = "" then Except.error token_error_message else Except.ok t

/-- The startup sequence of src/app.py: the module-level token check
runs at import time; only if it succeeds does `__main__` start the bot
polling thread and then the Flask HTTP loop.  The result is the list of
listener events, or the configuration error raised before any listener
started. -/
def programStartup (env : String → Option String) : Except String (List ListenerEvent) :=
  match moduleTokenCheck env with
  | Except.error e => Except.error e
  | Except.ok _ => Except.ok [ListenerEvent.pollingStarted, ListenerEvent.httpStarted]

/-- Removal of the separating spaces from a spaced-out string: keep
every character other than the single-space separator. -/
def removeSpaces (s : String) : String :=
  ⟨s.data.filter (fun c => c != ' ')⟩

/-- The specification's stated Title Case rule, written from its words
for comparison with the source's `str.title()`: only whitespace
delimits words; the first character of each word is uppercased and the
remaining characters of the word are lowercased.  The Boolean argument
records whether the next character starts a word. -/
def specTitleAux : Bool → List Char → List Char
  | _, [] => []
  | atStart, c :: cs =>
      if pyIsSpace c then c :: specTitleAux true cs
      else (if atStart then c.toUpper else c.toLower) :: specTitleAux false cs

/-- The whitespace-delimited Title Case rule as claimed by the
specification, on whole strings. -/
def specTitleCase (s : String) : String :=
  ⟨specTitleAux true s.data⟩

/-- Whether an optional preceding character is cased (alphabetic). -/
def prevCasedOf : Option Char → Bool
  | none => false
  | some q => q.isAlpha

/-- One character of the amended Title Case rule, as a function of the
character and its preceding character: an alphabetic character is
uppercased when it follows no character or a non-alphabetic character,
and lowercased when it follows an alphabetic character; non-alphabetic
characters are unchanged. -/
def titleStep (c : Char) (p : Option Char) : Char :=
  if c.isAlpha then (if prevCasedOf p then c.toLower else c.toUpper) else c

/-- The amended Title Case rule on whole strings: every character is
mapped by `titleStep` applied to it and its preceding character (any
non-alphabetic character acts as a word boundary, not only
whitespace). -/
def amendedTitle (s : String) : String :=
  ⟨(s.data.zip ((none : Option Char) :: s.data.map some)).map (fun pr => titleStep pr.1 pr.2)⟩

end NameBot

namespace NameBot

/-- `List.dropWhile` is idempotent. -/
lemma dropWhile_dropWhile (p : Char → Bool) (l : List Char) :
    (l.dropWhile p).dropWhile p = l.dropWhile p := by
  induction l with
  | nil => rfl
  | cons c cs ih =>
      by_cases h : p c
      · simp [List.dropWhile_cons, h, ih]
      · simp [List.dropWhile_cons, h]

/-- Stripping trailing characters preserves being front-clean: if
`dropWhile p` fixes `l`, it also fixes `l` with its trailing
`p`-run removed. -/
lemma dropWhile_back_strip (p : Char → Bool) (l : List Char) (h : l.dropWhile p = l) :
    ((l.reverse.dropWhile p).reverse).dropWhile p = (l.reverse.dropWhile p).reverse := by
  cases l with
  | nil => simp
  | cons c cs =>
      have hc : p c = false := by
        by_cases hb : p c
        · rw [List.dropWhile_cons_of_pos hb] at h
          have hlen : (cs.dropWhile p).length ≤ cs.length := by
            simpa using List.Sublist.length_le (List.dropWhile_sublist p)
          have := congrArg List.length h
          simp at this
          omega
        · simpa using hb
      rw [List.reverse_cons, List.dropWhile_append]
      by_cases he : (cs.reverse.dropWhile p).isEmpty
      · simp [he, List.dropWhile_cons, hc]
      · simp [he, List.reverse_append, List.dropWhile_cons, hc]

/-- `stripData` is idempotent. -/
lemma stripData_idem (l : List Char) : stripData (stripData l) = stripData l := by
  unfold stripData
  rw [dropWhile_back_strip pyIsSpace (l.dropWhile pyIsSpace) (dropWhile_dropWhile pyIsSpace l)]
  rw [List.reverse_reverse, dropWhile_dropWhile]

/-- Python `str.strip()` is idempotent. -/
lemma pyStrip_idem (s : String) : pyStrip (pyStrip s) = pyStrip s :=
  congrArg String.mk (stripData_idem s.data)

/-- Filtering the separator back out of a space-joined list of
singleton characters recovers the original characters, provided none of
them is itself a space. -/
lemma filter_joinWith_singletons :
    ∀ l : List Char, ' ' ∉ l →
      (joinWith [' '] (l.map (fun c => [c]))).filter (fun c => c != ' ') = l := by
  intro l
  induction l with
  | nil => intro _; rfl
  | cons c cs ih =>
      intro h
      have hc : (c != ' ') = true := by
        simp only [List.mem_cons, not_or] at h
        simpa [bne] using fun e => h.1 e.symm
      cases cs with
      | nil => simp [joinWith, List.filter, hc]
      | cons d ds =>
          have htail := ih (fun hm => h (List.mem_cons_of_mem c hm))
          simp only [List.map_cons, joinWith] at htail ⊢
          simp [List.filter_append, List.filter, hc, htail]

/-- The character-by-character `title` loop agrees with the
previous-character formulation, for any seed recording the preceding
character. -/
lemma titleAux_eq_zip (l : List Char) :
    ∀ p : Option Char,
      titleAux (prevCasedOf p) l = (l.zip (p :: l.map some)).map (fun pr => titleStep pr.1 pr.2) := by
  induction l with
  | nil => intro p; rfl
  | cons c cs ih =>
      intro p
      simp only [titleAux, List.map_cons, List.zip_cons_cons]
      refine congrArg₂ List.cons rfl ?_
      exact ih (some c)

/-- C1: for every non-empty name, `create_name_styles` builds exactly
eight labelled style lines, in the fixed order Normal, Uppercase,
Lowercase, Title Case, Alternating case, Reverse, With Emojis,
Spaced Out. -/
theorem create_name_styles_eight_lines (name : String) (_h : name ≠ "") :
    (create_name_styles_list name).length = 8 ∧
    ∃ v1 v2 v3 v4 v5 v6 v7 v8,
      create_name_styles_list name =
        [ "🔹 Normal: " ++ v1
        , "🔸 UPPERCASE: " ++ v2
        , "🔹 lowercase: " ++ v3
        , "🔸 Title Case: " ++ v4
        , "🔹 AlTeRnAtInG: " ++ v5
        , "🔸 Reverse: " ++ v6
        , "🔹 With Emojis: " ++ v7
        , "🔸 Spaced Out: " ++ v8 ] :=
  ⟨rfl, name, pyUpper name, pyLower name, pyTitle name, alternating name, pyReverse name,
    emoji_name name, spaced name, rfl⟩

/-- C1 witness: the theorem applied at the concrete name `Ana`. -/
theorem create_name_styles_eight_lines_witness :
    ("Ana" : String) ≠ "" ∧
    ((create_name_styles_list "Ana").length = 8 ∧
      ∃ v1 v2 v3 v4 v5 v6 v7 v8,
        create_name_styles_list "Ana" =
          [ "🔹 Normal: " ++ v1
          , "🔸 UPPERCASE: " ++ v2
          , "🔹 lowercase: " ++ v3
          , "🔸 Title Case: " ++ v4
          , "🔹 AlTeRnAtInG: " ++ v5
          , "🔸 Reverse: " ++ v6
          , "🔹 With Emojis: " ++ v7
          , "🔸 Spaced Out: " ++ v8 ]) :=
  ⟨by decide, create_name_styles_eight_lines "Ana" (by decide)⟩

/-- C9: the engine is total beyond its stated precondition: for every
string, the empty string included, it produces the eight labelled style
lines (the embedding is a total function with no error branch). -/
theorem create_name_styles_total (name : String) :
    (create_name_styles_list name).length = 8 ∧
    ∃ v1 v2 v3 v4 v5 v6 v7 v8,
      create_name_styles_list name =
        [ "🔹 Normal: " ++ v1
        , "🔸 UPPERCASE: " ++ v2
        , "🔹 lowercase: " ++ v3
        , "🔸 Title Case: " ++ v4
        , "🔹 AlTeRnAtInG: " ++ v5
        , "🔸 Reverse: " ++ v6
        , "🔹 With Emojis: " ++ v7
        , "🔸 Spaced Out: " ++ v8 ] :=
  ⟨rfl, name, pyUpper name, pyLower name, pyTitle name, alternating name, pyReverse name,
    emoji_name name, spaced name, rfl⟩

/-- C2 counterexample: on the name `a-b` the source's `str.title()`
uppercases the `b` after the hyphen, while the claimed
whitespace-only-boundary rule would lowercase it, so the claim as
stated is false. -/
theorem title_whitespace_rule_counterexample :
    pyTitle "a-b" = "A-B" ∧ specTitleCase "a-b" = "A-b"
      ∧ pyTitle "a-b" ≠ specTitleCase "a-b" := by
  decide

/-- C2 amended: for every non-empty name, the Title Case variant maps
each character by the preceding-character rule: an alphabetic character
is uppercased when it is first or follows a non-alphabetic character
and lowercased when it follows an alphabetic character; non-alphabetic
characters are unchanged (any non-alphabetic character acts as a word
boundary, not only whitespace). -/
theorem title_word_boundary_amended (name : String) (_h : name ≠ "") :
    pyTitle name = amendedTitle name :=
  congrArg String.mk (titleAux_eq_zip name.data none)

/-- C2 witness: the amended theorem applied at the concrete name
`Dr. a-b c`. -/
theorem title_word_boundary_amended_witness :
    ("Dr. a-b c" : String) ≠ "" ∧ pyTitle "Dr. a-b c" = amendedTitle "Dr. a-b c" :=
  ⟨by decide, title_word_boundary_amended "Dr. a-b c" (by decide)⟩

/-- C4: for every name containing no space, removing the separating
spaces from the Spaced Out variant reconstructs the name exactly. -/
theorem spaced_roundtrip (name : String) (h : ' ' ∉ name.data) :
    removeSpaces (spaced name) = name := by
  cases name with
  | mk l => exact congrArg String.mk (filter_joinWith_singletons l h)

/-- C4 witness: the theorem applied at the concrete name `Ana`. -/
theorem spaced_roundtrip_witness :
    ' ' ∉ ("Ana" : String).data ∧ removeSpaces (spaced "Ana") = "Ana" :=
  ⟨by decide, spaced_roundtrip "Ana" (by decide)⟩

/-- C5: in state `AwaitingName`, a text message that is empty after
stripping makes the controller emit the validation complaint and stay
in `AwaitingName`. -/
theorem empty_name_self_loop (t : String) (h : pyStrip t = "") :
    dispatch ConvState.awaitingName (Inbound.text t)
      = ([validation_message], ConvState.awaitingName) := by
  simp [dispatch, get_name, h]

/-- C5 witness: the theorem applied at a concrete whitespace-only
message. -/
theorem empty_name_self_loop_witness :
    pyStrip "   " = "" ∧
    dispatch ConvState.awaitingName (Inbound.text "   ")
      = ([validation_message], ConvState.awaitingName) :=
  ⟨by decide, empty_name_self_loop "   " (by decide)⟩

/-- C6 counterexample: a `/start` command arriving in state
`AwaitingName` matches no configured handler (the state's message
handler excludes commands, the only fallback is `/cancel`, and entry
points are not reconsulted while a conversation is active), so the
welcome prompt is not re-emitted, contradicting the claim. -/
theorem reentry_start_counterexample :
    welcome_message ∉ (dispatch ConvState.awaitingName (Inbound.command "start")).1 := by
  decide

/-- C6 amended: issuing the entry command while already in
`AwaitingName` is dropped unhandled: no message is emitted and the
session stays in `AwaitingName`. -/
theorem reentry_start_amended :
    dispatch ConvState.awaitingName (Inbound.command "start") = ([], ConvState.awaitingName) := by
  decide

/-- C7 counterexample: a `/cancel` command arriving while `Idle`
matches no configured handler (with no active conversation only the
entry point `/start` is consulted; fallbacks apply only inside a
conversation), so the cancellation acknowledgment is not emitted,
contradicting the claim. -/
theorem cancel_idle_counterexample :
    cancel_message ∉ (dispatch ConvState.idle (Inbound.command "cancel")).1 := by
  decide

/-- C7 amended: issuing cancel while `Idle` is dropped unhandled: the
state stays `Idle` and no message is emitted. -/
theorem cancel_idle_amended :
    dispatch ConvState.idle (Inbound.command "cancel") = ([], ConvState.idle) := by
  decide

/-- C8: when the bot token is absent from the process environment, the
startup sequence fails with the configuration error and no listener
event occurs: the error is raised before the polling loop or the HTTP
loop starts. -/
theorem missing_token_fails_fast (env : String → Option String)
    (h : env "TELEGRAM_BOT_TOKEN" = none) :
    programStartup env = Except.error token_error_message := by
  simp [programStartup, moduleTokenCheck, h]

/-- C8 witness: the theorem applied at the concrete empty
environment. -/
theorem missing_token_fails_fast_witness :
    (fun _ : String => (none : Option String)) "TELEGRAM_BOT_TOKEN" = none ∧
    programStartup (fun _ : String => (none : Option String))
      = Except.error token_error_message :=
  ⟨rfl, missing_token_fails_fast (fun _ => none) rfl⟩

/-- C10: the name handler is insensitive to surrounding whitespace:
for every inbound text, `get_name` behaves identically on the text and
on its stripped form (same messages, including the reply header and the
engine input embedded in them, and same next state). -/
theorem get_name_strip_insensitive (t : String) :
    get_name t = get_name (pyStrip t) := by
  simp only [get_name, pyStrip_idem]

end NameBot
